import Mathlib

/-
  Verification of the authorization-broker core (PKCE validation, OAuth2
  provider engine, device authorization flow, signed token service) through a
  shallow embedding of the Python source into Lean.

  Conventions of the embedding:
  - Pure Python functions become Lean functions over the same data.
  - `datetime` values become `Int` timestamps in seconds; `timedelta(minutes=m)`
    becomes `m * 60`.
  - Fallible Python code (raising exceptions) returns `Except PyErr _`.
  - Redis and the secondary storage become explicit maps threaded through the
    functions; serialization (`model_dump_json` / `model_validate_json`) is
    modelled symbolically by a sum type of the possible stored shapes, with a
    `raw` constructor for strings that do not parse.
  - Nondeterministic fresh values (uuid4, token_hex) become explicit inputs.
-/

/-- Python exception classes that the embedded code can raise (uncaught). -/
inductive PyErr where
  | valueError
  | validationError
  | attributeError
  | unicodeEncodeError
  deriving DecidableEq, Repr

namespace Pkce

/-! ### SHA-256, byte-for-byte from the specification used by `hashlib.sha256`.

All words are `Nat` reduced mod `2 ^ 32`; bytes are `Nat` values below 256. -/

/-- 2 ^ 32, the word modulus of SHA-256. -/
def M32 : Nat := 4294967296

/-- Right rotation of a 32-bit word. -/
def rotr32 (x n : Nat) : Nat := ((x >>> n) ||| (x <<< (32 - n))) % M32

/-- The SHA-256 choice function. -/
def sha2Ch (e f g : Nat) : Nat := (e &&& f) ^^^ ((e ^^^ 4294967295) &&& g)

/-- The SHA-256 majority function. -/
def sha2Maj (a b c : Nat) : Nat := (a &&& b) ^^^ (a &&& c) ^^^ (b &&& c)

/-- Big sigma-0 of SHA-256. -/
def bigSigma0 (x : Nat) : Nat := rotr32 x 2 ^^^ rotr32 x 13 ^^^ rotr32 x 22

/-- Big sigma-1 of SHA-256. -/
def bigSigma1 (x : Nat) : Nat := rotr32 x 6 ^^^ rotr32 x 11 ^^^ rotr32 x 25

/-- Small sigma-0 of SHA-256. -/
def smallSigma0 (x : Nat) : Nat := rotr32 x 7 ^^^ rotr32 x 18 ^^^ (x >>> 3)

/-- Small sigma-1 of SHA-256. -/
def smallSigma1 (x : Nat) : Nat := rotr32 x 17 ^^^ rotr32 x 19 ^^^ (x >>> 10)

/-- The 64 SHA-256 round constants. -/
def sha256K : List Nat :=
  [1116352408, 1899447441, 3049323471, 3921009573, 961987163,
   1508970993, 2453635748, 2870763221, 3624381080, 310598401,
   607225278, 1426881987, 1925078388, 2162078206, 2614888103,
   3248222580, 3835390401, 4022224774, 264347078, 604807628,
   770255983, 1249150122, 1555081692, 1996064986, 2554220882,
   2821834349, 2952996808, 3210313671, 3336571891, 3584528711,
   113926993, 338241895, 666307205, 773529912, 1294757372,
   1396182291, 1695183700, 1986661051, 2177026350, 2456956037,
   2730485921, 2820302411, 3259730800, 3345764771, 3516065817,
   3600352804, 4094571909, 275423344, 430227734, 506948616,
   659060556, 883997877, 958139571, 1322822218, 1537002063,
   1747873779, 1955562222, 2024104815, 2227730452, 2361852424,
   2428436474, 2756734187, 3204031479, 3329325298]

/-- The eight SHA-256 chaining words. -/
structure Hash8 where
  h0 : Nat
  h1 : Nat
  h2 : Nat
  h3 : Nat
  h4 : Nat
  h5 : Nat
  h6 : Nat
  h7 : Nat
  deriving DecidableEq, Repr

/-- The SHA-256 initial hash value. -/
def sha256H0 : Hash8 :=
  ⟨1779033703, 3144134277, 1013904242, 2773480762,
   1359893119, 2600822924, 528734635, 1541459225⟩

/-- The eight big-endian bytes of a 64-bit length field. -/
def beBytes64 (n : Nat) : List Nat :=
  let m := n % 18446744073709551616
  [m >>> 56 % 256, m >>> 48 % 256, m >>> 40 % 256, m >>> 32 % 256,
   m >>> 24 % 256, m >>> 16 % 256, m >>> 8 % 256, m % 256]

/-- A big-endian word from a byte list. -/
def beWord (bs : List Nat) : Nat := bs.foldl (fun acc b => acc * 256 + b) 0

/-- SHA-256 padding: append 0x80, zeros and the 64-bit bit length, reaching a
multiple of 64 bytes. -/
def sha256Pad (msg : List Nat) : List Nat :=
  let len := msg.length
  let zeros := (120 - (len + 1) % 64) % 64
  msg ++ [128] ++ List.replicate zeros 0 ++ beBytes64 (8 * len)

/-- The 64-entry SHA-256 message schedule of one 64-byte chunk. -/
def sha256Schedule (chunk : List Nat) : List Nat :=
  (List.range 64).foldl
    (fun w t =>
      if t < 16 then
        w ++ [beWord ((chunk.drop (4 * t)).take 4)]
      else
        w ++ [(smallSigma1 (w.getD (t - 2) 0) + w.getD (t - 7) 0 +
               smallSigma0 (w.getD (t - 15) 0) + w.getD (t - 16) 0) % M32])
    []

/-- The SHA-256 compression of one 64-byte chunk into the chaining state. -/
def sha256Compress (H : Hash8) (chunk : List Nat) : Hash8 :=
  let w := sha256Schedule chunk
  let s := (List.range 64).foldl
    (fun s t =>
      let t1 := (s.h7 + bigSigma1 s.h4 + sha2Ch s.h4 s.h5 s.h6 +
                 sha256K.getD t 0 + w.getD t 0) % M32
      let t2 := (bigSigma0 s.h0 + sha2Maj s.h0 s.h1 s.h2) % M32
      ⟨(t1 + t2) % M32, s.h0, s.h1, s.h2, (s.h3 + t1) % M32, s.h4, s.h5, s.h6⟩)
    H
  ⟨(H.h0 + s.h0) % M32, (H.h1 + s.h1) % M32, (H.h2 + s.h2) % M32,
   (H.h3 + s.h3) % M32, (H.h4 + s.h4) % M32, (H.h5 + s.h5) % M32,
   (H.h6 + s.h6) % M32, (H.h7 + s.h7) % M32⟩

/-- The four big-endian bytes of a 32-bit word. -/
def wordBytes (w : Nat) : List Nat :=
  [w >>> 24 % 256, w >>> 16 % 256, w >>> 8 % 256, w % 256]

/-- SHA-256 of a byte list: the 32 digest bytes, as `hashlib.sha256(_).digest()`
produces them. -/
def sha256 (msg : List Nat) : List Nat :=
  let padded := sha256Pad msg
  let chunks := (List.range (padded.length / 64)).map
    (fun i => (padded.drop (64 * i)).take 64)
  let final := chunks.foldl sha256Compress sha256H0
  wordBytes final.h0 ++ wordBytes final.h1 ++ wordBytes final.h2 ++
  wordBytes final.h3 ++ wordBytes final.h4 ++ wordBytes final.h5 ++
  wordBytes final.h6 ++ wordBytes final.h7

/-! ### URL-safe base64 without padding, as
`base64.urlsafe_b64encode(_).rstrip(b"=")` produces it. -/

/-- The URL-safe base64 alphabet. -/
def base64UrlAlphabet : List Char :=
  "ABCDEFGHIJKLMNOPQRSTUVWXYZabcdefghijklmnopqrstuvwxyz0123456789-_".toList

/-- The URL-safe base64 character of a 6-bit group. -/
def b64Char (n : Nat) : Char := base64UrlAlphabet.getD n 'A'

/-- URL-safe base64 of a byte list, with the trailing padding stripped. -/
def base64UrlNoPad : List Nat → List Char
  | b1 :: b2 :: b3 :: rest =>
      let n := b1 * 65536 + b2 * 256 + b3
      b64Char (n >>> 18 % 64) :: b64Char (n >>> 12 % 64) ::
      b64Char (n >>> 6 % 64) :: b64Char (n % 64) :: base64UrlNoPad rest
  | [b1, b2] =>
      let n := b1 * 65536 + b2 * 256
      [b64Char (n >>> 18 % 64), b64Char (n >>> 12 % 64), b64Char (n >>> 6 % 64)]
  | [b1] =>
      let n := b1 * 65536
      [b64Char (n >>> 18 % 64), b64Char (n >>> 12 % 64)]
  | [] => []

/-- Python `str.encode("ascii")`: the code points as bytes when all are below
128, failure (UnicodeEncodeError) otherwise. -/
def encodeAscii (s : String) : Option (List Nat) :=
  if s.data.all (fun c => c.toNat < 128) then some (s.data.map Char.toNat)
  else none

/-- `calculate_s256_challenge` from `fastapi_auth/utils/_pkce.py`: the S256
transform, SHA-256 of the ascii verifier, URL-safe base64 without padding.
Returns `none` when the verifier is not ascii (where Python raises). -/
def calculate_s256_challenge (verifier : String) : Option String :=
  (encodeAscii verifier).map (fun bytes => String.mk (base64UrlNoPad (sha256 bytes)))

/-- Outcome of `validate_pkce`: a boolean, or one of the two exceptions the
Python function can raise. -/
inductive PkceResult where
  | ok (b : Bool)
  | unsupportedMethod
  | encodeError
  deriving DecidableEq, Repr

/-- `validate_pkce` from `fastapi_auth/utils/_pkce.py`: raises for any stored
method other than S256, recomputes the challenge from the received verifier and
compares it with the stored challenge (`secrets.compare_digest` on two ascii
strings decides exactly string equality; its constant-time execution is a
timing property outside this value-level embedding). -/
def validate_pkce (stored_challenge stored_method received_verifier : String) :
    PkceResult :=
  if stored_method ≠ "S256" then .unsupportedMethod
  else
    match calculate_s256_challenge received_verifier with
    | none => .encodeError
    | some calculated_challenge => .ok (calculated_challenge == stored_challenge)

end Pkce

namespace DeviceFlow

/-! ### The device authorization flow of `backend/app/utils.py`.

Redis becomes an explicit map from keys to a stored value paired with its
absolute expiration time (`set` with `ex=s` at time `t` expires the key at
`t + s`; a get at or past that time sees nothing). Timestamps are integer
seconds; `settings.DEVICE_AUTH_TTL_MINUTES` is the `ttlMinutes` argument. -/

/-- Status of a device authorization record. -/
inductive DeviceStatus where
  | pending
  | authorized
  deriving DecidableEq, Repr

/-- `DeviceAuthorizationData` from `backend/app/utils.py`. -/
structure DeviceAuthorizationData where
  device_code : String
  client_id : String
  created_at : Int
  expires_at : Int
  request_ip : Option String
  status : DeviceStatus
  access_token : Option String := none
  deriving DecidableEq, Repr

/-- A value held by Redis: the serialized device record, or a plain string
(the user-code to device-code mapping). -/
inductive RedisValue where
  | record (d : DeviceAuthorizationData)
  | str (s : String)
  deriving DecidableEq, Repr

/-- The Redis key space: each key holds a value and an absolute expiry time. -/
def RedisStore : Type := String → Option (RedisValue × Int)

/-- An empty Redis. -/
def RedisStore.empty : RedisStore := fun _ => none

/-- `redis.set(key, value, ex=...)` with the expiry made absolute. -/
def redisSet (r : RedisStore) (key : String) (v : RedisValue) (expireAt : Int) :
    RedisStore :=
  fun k => if k = key then some (v, expireAt) else r k

/-- `redis.get(key)` at time `now`: the value while it has not expired. -/
def redisGet (r : RedisStore) (key : String) (now : Int) : Option RedisValue :=
  match r key with
  | some (v, expireAt) => if now < expireAt then some v else none
  | none => none

/-- `DeviceAuthorizationData.model_validate_json`: a stored record parses to
itself, anything else raises a pydantic ValidationError. -/
def parseDeviceData : RedisValue → Except PyErr DeviceAuthorizationData
  | .record d => .ok d
  | .str _ => .error .validationError

/-- `create_and_store_device_code` from `backend/app/utils.py`: builds a
pending record expiring after the TTL and writes, as one atomic pipeline, the
record under `auth:device:<device_code>` and the user-code mapping under
`auth:user-code:<user_code>`, both with the same TTL. The uuid4 device code is
the explicit `device_code` input. -/
def create_and_store_device_code (user_code client_id : String)
    (request_ip : Option String) (redis : RedisStore) (now ttlMinutes : Int)
    (device_code : String) : String × RedisStore :=
  let data : DeviceAuthorizationData :=
    { device_code := device_code
      client_id := client_id
      created_at := now
      expires_at := now + ttlMinutes * 60
      request_ip := request_ip
      status := .pending
      access_token := none }
  let r₁ := redisSet redis ("auth:device:" ++ device_code) (.record data)
    (now + ttlMinutes * 60)
  let r₂ := redisSet r₁ ("auth:user-code:" ++ user_code) (.str device_code)
    (now + ttlMinutes * 60)
  (device_code, r₂)

/-- `get_device_authorization_data` from `backend/app/utils.py`: reads
`auth:device:<device_code>` and parses it; an absent or expired key is `none`
(not an error). -/
def get_device_authorization_data (device_code : String) (redis : RedisStore)
    (now : Int) : Except PyErr (Option DeviceAuthorizationData) :=
  match redisGet redis ("auth:device:" ++ device_code) now with
  | some v => (parseDeviceData v).map some
  | none => .ok none

/-- `authorize_device_code` from `backend/app/utils.py`: loads the record
(ValueError when absent), sets `status := authorized` and the access token,
and rewrites the record under the same key with a fresh full TTL. -/
def authorize_device_code (device_code access_token : String)
    (redis : RedisStore) (now ttlMinutes : Int) : Except PyErr RedisStore :=
  match get_device_authorization_data device_code redis now with
  | .error e => .error e
  | .ok none => .error .valueError
  | .ok (some data) =>
      let data' := { data with status := .authorized,
                               access_token := some access_token }
      .ok (redisSet redis ("auth:device:" ++ device_code) (.record data')
        (now + ttlMinutes * 60))

/-- A concrete store: device code `dc-1` created at time 0 for client `cli`
with a 5 minute TTL. -/
def deviceBeginState : RedisStore :=
  (create_and_store_device_code "uc-1" "cli" (some "1.2.3.4")
    RedisStore.empty 0 5 "dc-1").2

/-- The double-authorization run refuting C1: create a device code at time 0
with a 5 minute TTL, authorize it with `tok-1` at time 10, authorize it again
with the distinct token `tok-2` at time 20. -/
def deviceDoubleAuthorizeRun : Except PyErr RedisStore :=
  match authorize_device_code "dc-1" "tok-1" deviceBeginState 10 5 with
  | .ok r₁ => authorize_device_code "dc-1" "tok-2" r₁ 20 5
  | .error e => .error e

end DeviceFlow

namespace SignedTokens

/-! ### The signed token service of `backend/app/utils.py`
(`generate_password_reset_token`, `generate_verification_email_token`,
`verify_password_reset_token`). -/

/-- The JWT claim set these functions build: expiry, not-before and the
composite subject string. -/
structure JwtClaims where
  exp : Int
  nbf : Int
  sub : String
  deriving DecidableEq, Repr

/-- Modelled from the spec: the external PyJWT library at its interface (spec
section 4.4, "issues compact, signed, expiring tokens"). A token is its claim
set plus a signature; the HMAC-SHA256 signature is modelled symbolically as the
pair of the signing key and the signed claims — exactly the data the MAC
binds — so a signature check is equality with that pair. -/
structure JwtToken where
  claims : JwtClaims
  sig : String × JwtClaims
  deriving DecidableEq, Repr

/-- `jwt.encode(claims, key, algorithm="HS256")` in the symbolic model. -/
def jwt_encode (claims : JwtClaims) (key : String) : JwtToken :=
  ⟨claims, (key, claims)⟩

/-- `jwt.decode(token, key, algorithms=["HS256"])` at time `now` in the
symbolic model: yields the claims only when the signature verifies under `key`
and the token is timely (`nbf <= now < exp`); every failure — bad signature,
expired, not yet valid — is the same InvalidTokenError, here `none`. -/
def jwt_decode (tok : JwtToken) (key : String) (now : Int) : Option JwtClaims :=
  if tok.sig = (key, tok.claims) ∧ tok.claims.nbf ≤ now ∧ now < tok.claims.exp
  then some tok.claims
  else none

/-- Python `sub.split("-", maxsplit=1)` scanning for the first dash. -/
def splitAtFirstDash : List Char → Option (List Char × List Char)
  | [] => none
  | c :: rest =>
      if c = '-' then some ([], rest)
      else (splitAtFirstDash rest).map (fun p => (c :: p.1, p.2))

/-- Python `s.split("-", maxsplit=1)`: one or two pieces. -/
def pySplitOnce (s : String) : List String :=
  match splitAtFirstDash s.data with
  | none => [s]
  | some (a, b) => [String.mk a, String.mk b]

/-- `generate_password_reset_token` from `backend/app/utils.py`: signs
`exp = now + ttl`, `nbf = now` and the subject `"reset-" ++ email`
(`TokenType.reset.value` is `"reset"`); `ttlSeconds` stands for
`EMAIL_RESET_TOKEN_EXPIRE_HOURS` converted to seconds. -/
def generate_password_reset_token (email : String) (now ttlSeconds : Int)
    (key : String) : JwtToken :=
  jwt_encode { exp := now + ttlSeconds, nbf := now, sub := "reset-" ++ email } key

/-- `generate_verification_email_token` from `backend/app/utils.py`: the same
shape with the subject kind `"email"`. -/
def generate_verification_email_token (email : String) (now ttlSeconds : Int)
    (key : String) : JwtToken :=
  jwt_encode { exp := now + ttlSeconds, nbf := now, sub := "email-" ++ email } key

/-- `verify_password_reset_token` from `backend/app/utils.py`: decodes the
token (any InvalidTokenError gives `none`), splits the subject at the first
dash and returns the payload only when the kind piece is exactly `"reset"`;
every other outcome is the same `none`. -/
def verify_password_reset_token (tok : JwtToken) (key : String) (now : Int) :
    Option String :=
  match jwt_decode tok key now with
  | none => none
  | some claims =>
      match pySplitOnce claims.sub with
      | [a, b] => if a = "reset" then some b else none
      | _ => none

end SignedTokens

namespace OAuthEngine

/-! ### The OAuth2 provider engine of
`fastapi_auth/social_providers/oauth.py` (`authorize`, `callback`,
`_link_flow`, `finalize_link`).

The injected collaborators keep only their interface behaviour:
the secondary storage is a map from keys to a symbolic serialized value, the
accounts storage is an in-memory state with the operations of
`fastapi_auth/_storage.py` (their semantics follow the reference fake in
`tests/conftest.py`), the upstream exchange `_fetch_user_info` (network I/O)
is an oracle from the provider code to its outcome, and fresh random values
(`secrets.token_hex`, `uuid.uuid4`) are explicit inputs. Python truthiness of
optional strings (`if not x` catches both None and the empty string) is kept
through `getTruthy`. -/

/-- The user info the engine requires from the provider: a non-empty email and
upstream subject id (the `UserInfo` TypedDict). -/
structure UserInfo where
  email : String
  id : String
  deriving DecidableEq, Repr

/-- The token fields of a successful upstream exchange that the engine copies
into social accounts. -/
structure TokenResponseData where
  access_token : String
  refresh_token : Option String
  access_token_expires_at : Option Int
  refresh_token_expires_at : Option Int
  scope : Option String
  deriving DecidableEq, Repr

/-- A local user of the accounts storage (`User` in `_storage.py`). -/
structure UserR where
  id : String
  email : String
  deriving DecidableEq, Repr

/-- A social account row (`SocialAccount` in `_storage.py`). -/
structure SocialAccountR where
  id : String
  user_id : String
  provider : String
  provider_user_id : String
  access_token : Option String
  refresh_token : Option String
  access_token_expires_at : Option Int
  refresh_token_expires_at : Option Int
  scope : Option String
  deriving DecidableEq, Repr

/-- The accounts storage state. -/
structure AccountsState where
  users : List UserR
  accounts : List SocialAccountR
  deriving DecidableEq, Repr

/-- `find_user_by_email`: the first user with the email. -/
def find_user_by_email (s : AccountsState) (email : String) : Option UserR :=
  s.users.find? (fun u => u.email == email)

/-- `find_user_by_id`: the first user with the id. -/
def find_user_by_id (s : AccountsState) (id : String) : Option UserR :=
  s.users.find? (fun u => u.id == id)

/-- `find_social_account`: the account under the unique
`(provider, provider_user_id)` pair. -/
def find_social_account (s : AccountsState) (provider provider_user_id : String) :
    Option SocialAccountR :=
  s.accounts.find? (fun a =>
    a.provider == provider && a.provider_user_id == provider_user_id)

/-- `create_user`: the storage may refuse by policy (a FastAPIAuthException
with an error code and description, as the invite-only fake in conftest does);
otherwise a new user is appended, with the id and email of the upstream user
info as in the conftest fake. The engine calls this only when no user with the
email exists. -/
def create_user (s : AccountsState) (policy : UserInfo → Option (String × String))
    (user_info : UserInfo) : Except (String × String) (UserR × AccountsState) :=
  match policy user_info with
  | some e => .error e
  | none =>
      .ok (⟨user_info.id, user_info.email⟩,
        { s with users := s.users ++ [⟨user_info.id, user_info.email⟩] })

/-- `create_social_account`: appends a new account row owned by `user_id`,
with a fresh id supplied by the caller. -/
def create_social_account (s : AccountsState)
    (acct_id user_id provider provider_user_id : String)
    (t : TokenResponseData) : AccountsState :=
  { s with accounts := s.accounts ++
      [⟨acct_id, user_id, provider, provider_user_id, some t.access_token,
        t.refresh_token, t.access_token_expires_at, t.refresh_token_expires_at,
        t.scope⟩] }

/-- `update_social_account`: refreshes the token fields of the account with
the given id; identity fields (id, owner, provider, subject) are untouched. -/
def update_social_account (s : AccountsState) (acct_id : String)
    (t : TokenResponseData) : AccountsState :=
  { s with accounts := s.accounts.map (fun a =>
      if a.id == acct_id then
        { a with access_token := some t.access_token,
                 refresh_token := t.refresh_token,
                 access_token_expires_at := t.access_token_expires_at,
                 refresh_token_expires_at := t.refresh_token_expires_at,
                 scope := t.scope }
      else a) }

/-- `OAuth2AuthorizationRequestData` (pydantic). The method field is the
plain string; its `Literal["S256"]` constraint lives in the parse function. -/
structure OAuth2AuthorizationRequestData where
  redirect_uri : String
  login_hint : Option String
  client_state : Option String
  state : String
  code_challenge : String
  code_challenge_method : String
  link : Bool := false
  deriving DecidableEq, Repr

/-- `OAuth2LinkCodeData` (pydantic). -/
structure OAuth2LinkCodeData where
  expires_at : Int
  client_id : String
  redirect_uri : String
  code_challenge : String
  code_challenge_method : String
  provider_code : String
  deriving DecidableEq, Repr

/-- Modelled from the spec: `AuthorizationCodeGrantData` of
`fastapi_auth/_issuer.py` is not included in src; its fields follow the
AuthorizationCodeGrant record of the spec (section 3) and the constructor call
in `callback`. -/
structure AuthorizationCodeGrantData where
  user_id : String
  expires_at : Int
  client_id : String
  redirect_uri : String
  code_challenge : String
  code_challenge_method : String
  deriving DecidableEq, Repr

/-- A value in the secondary storage: one of the serialized records, or a raw
string that parses as none of them. -/
inductive StoredValue where
  | authReq (d : OAuth2AuthorizationRequestData)
  | linkReq (d : OAuth2LinkCodeData)
  | grant (d : AuthorizationCodeGrantData)
  | raw (s : String)
  deriving DecidableEq, Repr

/-- `OAuth2AuthorizationRequestData.model_validate_json`: succeeds exactly on
a stored request whose method satisfies the `Literal["S256"]` field. -/
def parseAuthorizationRequestData : StoredValue →
    Except PyErr OAuth2AuthorizationRequestData
  | .authReq d =>
      if d.code_challenge_method = "S256" then .ok d
      else .error .validationError
  | _ => .error .validationError

/-- `OAuth2LinkCodeData.model_validate_json`: succeeds exactly on a stored
link request whose method satisfies the `Literal["S256"]` field. -/
def parseLinkCodeData : StoredValue → Except PyErr OAuth2LinkCodeData
  | .linkReq d =>
      if d.code_challenge_method = "S256" then .ok d
      else .error .validationError
  | _ => .error .validationError

/-- Modelled from the spec: the response shapes of
`fastapi_auth/utils/_response.py` (not included in src) — a bare, redirect-less
JSON error; an error delivered as a redirect carrying `error` and
`error_description` query parameters; a plain redirect with query parameters;
and a plain success body. The bare/redirect distinction is exactly the
distinction the spec draws between the two failure channels. -/
inductive Response where
  | error (error : String) (error_description : Option String)
      (status_code : Option Nat)
  | errorRedirect (uri : String) (error : String) (error_description : String)
  | redirect (uri : String) (query_params : List (String × String))
  | success (status_code : Nat) (body : String)
  deriving DecidableEq, Repr

/-- The fixed success body of `finalize_link`. -/
def linkFinalizedBody : String := "\x7b\"message\": \"Link finalized\"\x7d"

/-- The class-level configuration of an `OAuth2Provider` instance. -/
structure ProviderConfig where
  id : String
  authorization_endpoint : String
  scopes : List String
  supports_pkce : Bool
  client_id : String
  client_secret : String

/-- `relative_url`: drop the last path segment and append `path`. -/
def relative_url (url path : String) : String :=
  String.intercalate "/" ((url.splitOn "/").dropLast ++ [path])

/-- `build_authorization_params` of `OAuth2Provider` (the default
implementation): client id, joined scopes, the proxy callback, state and
response type, PKCE parameters when supported, and a truthy login hint. -/
def build_authorization_params (p : ProviderConfig)
    (state proxy_redirect_uri response_type code_challenge
     code_challenge_method : String) (login_hint : Option String) :
    List (String × String) :=
  [("client_id", p.client_id),
   ("scope", String.intercalate " " p.scopes),
   ("redirect_uri", proxy_redirect_uri),
   ("state", state),
   ("response_type", response_type)] ++
  (if p.supports_pkce then
    [("code_challenge", code_challenge),
     ("code_challenge_method", code_challenge_method)]
   else []) ++
  (match login_hint with
   | some lh => if lh = "" then [] else [("login_hint", lh)]
   | none => [])

/-- One request environment: the request data, the injected context
capabilities and the per-request external values. `query_params` and the two
body fields model `request.query_params` and the parsed JSON body;
`current_user` is the result of `context.get_user_from_request`;
`validate_http_url` is pydantic `TypeAdapter(HttpUrl).validate_python`
(the normalized URL, or failure); `fetch_user_info` is the outcome of
`_fetch_user_info` for a provider code — token exchange plus user-info fetch,
either an OAuth2Exception (error, description) or the user info and token
response; `create_user_policy` is the accounts-storage creation policy;
`fresh_state`, `fresh_code` and `fresh_account_id` are the random values drawn
during the request; `now` is the current time in seconds. -/
structure Env where
  query_params : String → Option String
  request_url : String
  body_link_code : Option String
  body_code_verifier : Option String
  current_user : Option UserR
  is_valid_redirect_uri : String → Bool
  validate_http_url : String → Option String
  fetch_user_info : String → Except (String × String) (UserInfo × TokenResponseData)
  create_user_policy : UserInfo → Option (String × String)
  fresh_state : String
  fresh_code : String
  fresh_account_id : String
  now : Int

/-- The mutable stores threaded through a request: the secondary storage and
the accounts storage. -/
structure EngineState where
  secondary_storage : String → Option StoredValue
  accounts : AccountsState

/-- `secondary_storage.set`. -/
def storageSet (m : String → Option StoredValue) (key : String)
    (v : StoredValue) : String → Option StoredValue :=
  fun k => if k = key then some v else m k

/-- Python truthiness of an optional string: None and `""` are both falsy. -/
def getTruthy (o : Option String) : Option String :=
  match o with
  | some s => if s = "" then none else some s
  | none => none

/-- Truthiness of a stored serialized value: only the empty raw string is
falsy. -/
def svalTruthy : StoredValue → Bool
  | .raw s => s ≠ ""
  | _ => true

/-- `secondary_storage.get` combined with the `if not raw:` truthiness test
the engine applies to it. -/
def storageGetTruthy (m : String → Option StoredValue) (key : String) :
    Option StoredValue :=
  match m key with
  | some v => if svalTruthy v then some v else none
  | none => none

/-- `OAuth2Provider.authorize`. Validates the redirect target first (bare
errors, since no redirect target is trusted yet), then response type,
challenge and method (errors as redirects to the validated target), then
stores the authorization request under the fresh state and redirects
upstream. -/
def authorize (p : ProviderConfig) (env : Env) (st : EngineState) :
    Response × EngineState :=
  match getTruthy (env.query_params "redirect_uri") with
  | none => (.error "invalid_request" none none, st)
  | some redirect_uri₀ =>
    match env.validate_http_url redirect_uri₀ with
    | none => (.error "invalid_redirect_uri" none none, st)
    | some redirect_uri =>
      if ¬ env.is_valid_redirect_uri redirect_uri then
        (.error "invalid_redirect_uri" none none, st)
      else
        match getTruthy (env.query_params "response_type") with
        | none =>
            (.errorRedirect redirect_uri "invalid_request"
              "No response type provided", st)
        | some response_type =>
          if response_type ≠ "code" ∧ response_type ≠ "link_code" then
            (.errorRedirect redirect_uri "invalid_request"
              "Unsupported response type", st)
          else
            match getTruthy (env.query_params "code_challenge") with
            | none =>
                (.errorRedirect redirect_uri "invalid_request"
                  "No code challenge provided", st)
            | some code_challenge =>
              match env.query_params "code_challenge_method" with
              | some "S256" =>
                  let login_hint := env.query_params "login_hint"
                  let client_state := env.query_params "state"
                  let state := env.fresh_state
                  let data : OAuth2AuthorizationRequestData :=
                    ⟨redirect_uri, login_hint, client_state, state,
                     code_challenge, "S256", response_type == "link_code"⟩
                  let storage' := storageSet st.secondary_storage
                    ("oauth:authorization_request:" ++ state) (.authReq data)
                  let st' := { st with secondary_storage := storage' }
                  let proxy_redirect_uri :=
                    relative_url env.request_url "callback"
                  (.redirect p.authorization_endpoint
                    (build_authorization_params p state proxy_redirect_uri
                      "code" code_challenge "S256" login_hint), st')
              | _ =>
                  (.errorRedirect redirect_uri "invalid_request"
                    "Unsupported code challenge method", st)

/-- `OAuth2Provider._link_flow`: store a link request carrying the deferred
upstream provider code, and redirect the caller with the fresh link code. -/
def link_flow (p : ProviderConfig) (env : Env) (st : EngineState)
    (provider_data : OAuth2AuthorizationRequestData) (provider_code : String) :
    Response × EngineState :=
  let data : OAuth2LinkCodeData :=
    ⟨env.now + 600, p.client_id, provider_data.redirect_uri,
     provider_data.code_challenge, provider_data.code_challenge_method,
     provider_code⟩
  let code := env.fresh_code
  let storage' := storageSet st.secondary_storage
    ("oauth:link_request:" ++ code) (.linkReq data)
  let st' := { st with secondary_storage := storage' }
  (.redirect provider_data.redirect_uri [("link_code", code)], st')

/-- The tail of `callback` shared by both account branches: mint a fresh
authorization code, store the grant under it, and redirect the caller with the
code. -/
def issue_authorization_code (p : ProviderConfig) (env : Env)
    (st : EngineState) (redirect_uri : String)
    (provider_data : OAuth2AuthorizationRequestData) (user : UserR) :
    Response × EngineState :=
  let code := env.fresh_code
  let data : AuthorizationCodeGrantData :=
    ⟨user.id, env.now + 600, p.client_id, redirect_uri,
     provider_data.code_challenge, provider_data.code_challenge_method⟩
  let storage' := storageSet st.secondary_storage ("oauth:code:" ++ code)
    (.grant data)
  let st' := { st with secondary_storage := storage' }
  (.redirect redirect_uri [("code", code)], st')

/-- `OAuth2Provider.callback`. State lookup failures are bare errors; once the
stored request is loaded, failures redirect to its redirect_uri. The link
branch defers to `link_flow`. Otherwise the upstream code is exchanged; an
existing social account is refreshed and its owner loaded (dereferencing the
loaded owner without a None check — an absent owner raises AttributeError);
with no social account, an existing user with the email fails closed with
`account_exists`, and otherwise a user and account are created. Both success
paths end in `issue_authorization_code`. -/
def callback (p : ProviderConfig) (env : Env) (st : EngineState) :
    Except PyErr (Response × EngineState) :=
  match getTruthy (env.query_params "state") with
  | none =>
      .ok (.error "server_error" (some "No state found in request") none, st)
  | some state =>
    match storageGetTruthy st.secondary_storage
        ("oauth:authorization_request:" ++ state) with
    | none =>
        .ok (.error "server_error" (some "Provider data not found") none, st)
    | some raw_provider_data =>
      match parseAuthorizationRequestData raw_provider_data with
      | .error _ =>
          .ok (.error "server_error" (some "Invalid provider data") none, st)
      | .ok provider_data =>
        match getTruthy (env.query_params "code") with
        | none =>
            .ok (.errorRedirect provider_data.redirect_uri "server_error"
              "No authorization code received in callback", st)
        | some code =>
          if provider_data.link then
            .ok (link_flow p env st provider_data code)
          else
            let redirect_uri := provider_data.redirect_uri
            match env.fetch_user_info code with
            | .error e => .ok (.errorRedirect redirect_uri e.1 e.2, st)
            | .ok (user_info, token_response) =>
              match find_social_account st.accounts p.id user_info.id with
              | some social_account =>
                  let accounts₁ := update_social_account st.accounts
                    social_account.id token_response
                  match find_user_by_id accounts₁ social_account.user_id with
                  | none => .error .attributeError
                  | some user =>
                      .ok (issue_authorization_code p env
                        { st with accounts := accounts₁ } redirect_uri
                        provider_data user)
              | none =>
                match find_user_by_email st.accounts user_info.email with
                | some _ =>
                    .ok (.errorRedirect redirect_uri "account_exists"
                      "An account with this email already exists.", st)
                | none =>
                  match create_user st.accounts env.create_user_policy
                      user_info with
                  | .error e => .ok (.errorRedirect redirect_uri e.1 e.2, st)
                  | .ok (user, accounts₁) =>
                      let accounts₂ := create_social_account accounts₁
                        env.fresh_account_id user.id p.id user_info.id
                        token_response
                      .ok (issue_authorization_code p env
                        { st with accounts := accounts₂ } redirect_uri
                        provider_data user)

/-- `OAuth2Provider.finalize_link`. Requires an authenticated caller (bare
401), loads and parses the link request (bare errors, never deleting it),
checks expiry, method and the PKCE verifier, exchanges the deferred provider
code, and then updates the social account (refusing to move it off a
different owner) or creates one owned by the caller. The two exceptions
`validate_pkce` can raise propagate out of the handler. -/
def finalize_link (p : ProviderConfig) (env : Env) (st : EngineState) :
    Except PyErr (Response × EngineState) :=
  match env.current_user with
  | none => .ok (.error "unauthorized" (some "Not logged in") (some 401), st)
  | some user =>
    match getTruthy env.body_link_code with
    | none =>
        .ok (.error "server_error" (some "No link code found in request")
          none, st)
    | some code =>
      match storageGetTruthy st.secondary_storage
          ("oauth:link_request:" ++ code) with
      | none =>
          .ok (.error "server_error"
            (some "No link data found in secondary storage") none, st)
      | some raw =>
        match parseLinkCodeData raw with
        | .error _ =>
            .ok (.error "server_error" (some "Invalid link data") none, st)
        | .ok link_data =>
          if link_data.expires_at < env.now then
            .ok (.error "server_error" (some "Link code has expired") none, st)
          else if link_data.code_challenge_method ≠ "S256" then
            .ok (.error "server_error"
              (some "Unsupported code challenge method") none, st)
          else
            match getTruthy env.body_code_verifier with
            | none =>
                .ok (.error "server_error" (some "No code_verifier provided")
                  none, st)
            | some code_verifier =>
              match Pkce.validate_pkce link_data.code_challenge
                  link_data.code_challenge_method code_verifier with
              | .unsupportedMethod => .error .valueError
              | .encodeError => .error .unicodeEncodeError
              | .ok false =>
                  .ok (.error "server_error" (some "Invalid code challenge")
                    none, st)
              | .ok true =>
                match env.fetch_user_info link_data.provider_code with
                | .error e => .ok (.error e.1 (some e.2) none, st)
                | .ok (user_info, token_response) =>
                  match find_social_account st.accounts p.id user_info.id with
                  | some social_account =>
                      if social_account.user_id ≠ user.id then
                        .ok (.error "server_error"
                          (some "Social account already exists") none, st)
                      else
                        let accounts' := update_social_account st.accounts
                          social_account.id token_response
                        .ok (.success 200 linkFinalizedBody,
                          { st with accounts := accounts' })
                  | none =>
                      let accounts' := create_social_account st.accounts
                        env.fresh_account_id user.id p.id user_info.id
                        token_response
                      .ok (.success 200 linkFinalizedBody,
                        { st with accounts := accounts' })

/-! ### Concrete fixtures used to evaluate the engine on explicit inputs. -/

/-- A provider configuration in the shape of the Discord provider. -/
def provider₀ : ProviderConfig :=
  ⟨"discord", "https://up.example/auth", ["openid"], true, "cid", "sec"⟩

/-- Upstream user info for the fixture user. -/
def userInfo₀ : UserInfo := ⟨"alice@upstream.example", "puid-1"⟩

/-- A token response from a successful upstream exchange. -/
def tokResp₀ : TokenResponseData :=
  ⟨"at-1", some "rt-1", some 9999, some 9999, some "email"⟩

/-- A second token response, distinct from the first. -/
def tokResp₁ : TokenResponseData :=
  ⟨"at-2", some "rt-2", some 9999, some 9999, some "email"⟩

/-- A stored authorization request bound to the trusted redirect target. -/
def authReq₀ : OAuth2AuthorizationRequestData :=
  ⟨"https://app.example/cb", none, none, "st-1",
   "n4bQgYhMfWWaL-qgxVrQFaO_TxsrC4Is0V1sFbDwCgg", "S256", false⟩

/-- A stored link request whose challenge is the S256 challenge of the
verifier `test` and whose deferred provider code is `pc-1`. -/
def linkData₀ : OAuth2LinkCodeData :=
  ⟨2000, "cid", "https://app.example/cb",
   "n4bQgYhMfWWaL-qgxVrQFaO_TxsrC4Is0V1sFbDwCgg", "S256", "pc-1"⟩

/-- The base request environment of the fixtures: trusts exactly
`https://app.example/cb`, exchanges exactly the provider code `pc-1`, with no
creation policy and time 1000. -/
def env₀ : Env :=
  ⟨fun _ => none, "http://broker.example/discord/callback", none, none, none,
   fun u => u == "https://app.example/cb",
   fun u => if u = "https://app.example/cb" then some u else none,
   fun c => if c = "pc-1" then .ok (userInfo₀, tokResp₀)
     else .error ("server_error", "Token exchange failed"),
   fun _ => none, "state-1", "code-1", "acct-1", 1000⟩

/-- Query parameters of a provider callback: state `st-1`, code `pc-1`. -/
def qsCallback₀ : String → Option String :=
  fun k => if k = "state" then some "st-1"
    else if k = "code" then some "pc-1" else none

/-- Query parameters of a provider callback with the upstream code missing. -/
def qsCallbackNoCode₀ : String → Option String :=
  fun k => if k = "state" then some "st-1" else none

/-- A secondary storage holding only the fixture authorization request. -/
def storageAuthReq₀ : String → Option StoredValue :=
  fun k => if k = "oauth:authorization_request:st-1"
    then some (.authReq authReq₀) else none

/-- A secondary storage holding only the fixture link request under `lc-1`. -/
def storageLinkReq₀ : String → Option StoredValue :=
  fun k => if k = "oauth:link_request:lc-1"
    then some (.linkReq linkData₀) else none

/-- The environment of a finalize-link call by the logged-in user `u1`
presenting link code `lc-1` and the PKCE verifier `test`. -/
def envLink₀ : Env :=
  { env₀ with current_user := some ⟨"u1", "u1@example.com"⟩,
              body_link_code := some "lc-1",
              body_code_verifier := some "test" }

/-- Link fixture state: the stored link request, user `u1`, and a social
account for the upstream subject already owned by `u1`. -/
def stLinkOwned₀ : EngineState :=
  ⟨storageLinkReq₀,
   ⟨[⟨"u1", "u1@example.com"⟩],
    [⟨"sa-1", "u1", "discord", "puid-1", none, none, none, none, none⟩]⟩⟩

/-- Link fixture state: the stored link request, users `u1` and `u2`, and a
social account for the upstream subject owned by the OTHER user `u2`. -/
def stLinkForeign₀ : EngineState :=
  ⟨storageLinkReq₀,
   ⟨[⟨"u1", "u1@example.com"⟩, ⟨"u2", "u2@example.com"⟩],
    [⟨"sa-2", "u2", "discord", "puid-1", none, none, none, none, none⟩]⟩⟩

/-- Two consecutive finalize-link calls presenting the same link code, the
second running on the state the first produced. -/
def finalizeTwiceRun : Except PyErr (Response × Response) :=
  match finalize_link provider₀ envLink₀ stLinkOwned₀ with
  | .ok (r₁, st₁) =>
      match finalize_link provider₀ envLink₀ st₁ with
      | .ok (r₂, _) => .ok (r₁, r₂)
      | .error e => .error e
  | .error e => .error e

end OAuthEngine

/-! ## Theorems -/

namespace Pkce

/-- Every byte emitted by `wordBytes` is below 256. -/
theorem wordBytes_lt (w : Nat) : ∀ b ∈ wordBytes w, b < 256 := by
  intro b hb
  simp only [wordBytes, List.mem_cons, List.not_mem_nil, or_false] at hb
  rcases hb with h | h | h | h <;> subst h <;> exact Nat.mod_lt _ (by norm_num)

/-- A SHA-256 digest has 32 bytes. -/
theorem sha256_length (msg : List Nat) : (sha256 msg).length = 32 := by
  simp [sha256, wordBytes]

/-- Every byte of a SHA-256 digest is below 256. -/
theorem sha256_mem_lt (msg : List Nat) : ∀ b ∈ sha256 msg, b < 256 := by
  intro b hb
  simp only [sha256, List.mem_append, or_assoc] at hb
  rcases hb with h | h | h | h | h | h | h | h <;> exact wordBytes_lt _ b h

/-- Reducing each digest byte mod 256 changes nothing. -/
theorem sha256_map_mod (msg : List Nat) :
    (sha256 msg).map (fun b => b % 256) = sha256 msg := by
  have h := List.map_congr_left
    (fun b hb => Nat.mod_eq_of_lt (sha256_mem_lt msg b hb))
  simpa using h

/-- The ascii encoding of a string of `k` letters `a`. -/
theorem encodeAscii_replicate (k : Nat) :
    encodeAscii (String.mk (List.replicate k 'a')) = some (List.replicate k 97) := by
  simp [encodeAscii, List.all_eq_true, List.mem_replicate]

end Pkce

namespace Pkce

/-- C3 (counterexample): the middle part of the claim — that
`validate(challenge_of(v1), "S256", v2)` is false for EVERY pair of distinct
verifiers — is refuted by cardinality: SHA-256 maps the infinitely many ascii
verifiers into the finitely many 32-byte digests, so two distinct verifiers
share a challenge, and `validate_pkce` accepts the second verifier against the
challenge of the first. -/
theorem validate_pkce_distinct_not_always_false :
    ¬ (∀ v₁ v₂ c₁ : String, v₁ ≠ v₂ →
        calculate_s256_challenge v₁ = some c₁ →
        validate_pkce c₁ "S256" v₂ = .ok false) := by
  intro hclaim
  have hfin : Finite (Mathlib.Vector (Fin 256) 32) := Finite.of_fintype _
  obtain ⟨n, m, hnm, heq⟩ := @Finite.exists_ne_map_eq_of_infinite ℕ
    (Mathlib.Vector (Fin 256) 32) _ hfin
    (fun k : ℕ =>
      (⟨(sha256 (List.replicate k 97)).map
          (fun b => (⟨b % 256, Nat.mod_lt _ (by norm_num)⟩ : Fin 256)),
        by rw [List.length_map, sha256_length]⟩ : Mathlib.Vector (Fin 256) 32))
  have hdig : sha256 (List.replicate n 97) = sha256 (List.replicate m 97) := by
    have h₀ := congrArg (fun v : Mathlib.Vector (Fin 256) 32 => v.1.map Fin.val) heq
    simp only [List.map_map] at h₀
    have h₁ : (sha256 (List.replicate n 97)).map (fun b => b % 256) =
        (sha256 (List.replicate m 97)).map (fun b => b % 256) := h₀
    rw [sha256_map_mod, sha256_map_mod] at h₁
    exact h₁
  have hchal : ∀ k : ℕ,
      calculate_s256_challenge (String.mk (List.replicate k 'a')) =
        some (String.mk (base64UrlNoPad (sha256 (List.replicate k 97)))) := by
    intro k
    rw [calculate_s256_challenge, encodeAscii_replicate]
    rfl
  have hne : String.mk (List.replicate n 'a') ≠ String.mk (List.replicate m 'a') := by
    intro h
    apply hnm
    have := congrArg (fun s : String => s.data.length) h
    simpa using this
  have hval := hclaim _ _ _ hne (hchal n)
  rw [validate_pkce, if_neg (by simp), hchal m, ← hdig] at hval
  simp at hval

/-- C3 (amended): over the S256 transform of `fastapi_auth/utils/_pkce.py`:
validating a verifier against its own challenge returns true; validating a
verifier whose challenge differs from the stored one returns false (distinct
verifiers guarantee this only when their challenges differ, which no theorem
can supply for all pairs); any stored method other than S256 yields the
UnsupportedMethod failure, regardless of the challenge and verifier. -/
theorem validate_pkce_spec (v₁ v₂ v₃ c₁ c₂ chal m : String)
    (h₁ : calculate_s256_challenge v₁ = some c₁)
    (h₂ : calculate_s256_challenge v₂ = some c₂) :
    validate_pkce c₁ "S256" v₁ = .ok true ∧
    (c₂ ≠ c₁ → validate_pkce c₁ "S256" v₂ = .ok false) ∧
    (m ≠ "S256" → validate_pkce chal m v₃ = .unsupportedMethod) := by
  refine ⟨?_, ?_, ?_⟩
  · rw [validate_pkce, if_neg (by simp), h₁]
    simp
  · intro hne
    rw [validate_pkce, if_neg (by simp), h₂]
    simp [hne]
  · intro hm
    rw [validate_pkce, if_pos hm]

set_option maxRecDepth 100000 in
/-- C3 (witness): the amended statement evaluated at the verifier pair
`"test"` and `"wrong"` and at the method `"plain"`. -/
theorem validate_pkce_spec_witness :
    validate_pkce "n4bQgYhMfWWaL-qgxVrQFaO_TxsrC4Is0V1sFbDwCgg" "S256" "test" =
      .ok true ∧
    validate_pkce "n4bQgYhMfWWaL-qgxVrQFaO_TxsrC4Is0V1sFbDwCgg" "S256" "wrong" =
      .ok false ∧
    validate_pkce "n4bQgYhMfWWaL-qgxVrQFaO_TxsrC4Is0V1sFbDwCgg" "plain" "test" =
      .unsupportedMethod := by
  have h := validate_pkce_spec "test" "wrong" "test"
    "n4bQgYhMfWWaL-qgxVrQFaO_TxsrC4Is0V1sFbDwCgg"
    "iBCtWB5Z8rw5KLJhcHpxMI9-E56wSCA2bcTVwY2YAiU"
    "n4bQgYhMfWWaL-qgxVrQFaO_TxsrC4Is0V1sFbDwCgg" "plain" (by rfl) (by rfl)
  exact ⟨h.1, h.2.1 (by decide), h.2.2 (by decide)⟩

end Pkce

namespace DeviceFlow

/-- The two keys written by `create_and_store_device_code` never clash: the
record key and the user-code mapping key differ at their sixth character. -/
theorem device_key_ne_user_key (dc uc : String) :
    "auth:device:" ++ dc ≠ "auth:user-code:" ++ uc := by
  intro h
  have h₁ := congrArg (fun s : String => s.data.take 6) h
  simp only [String.data_append] at h₁
  rw [List.take_append_of_le_length (by decide),
      List.take_append_of_le_length (by decide)] at h₁
  exact absurd h₁ (by decide)

/-- C1 (counterexample): a device code created at time 0 and authorized with
`tok-1` at time 10 is authorized AGAIN with the distinct token `tok-2` at time
20 — the second call returns success rather than failing, and the stored
access token is silently replaced by `tok-2`. -/
theorem authorize_device_code_second_call_succeeds :
    deviceDoubleAuthorizeRun.map
        (fun r => get_device_authorization_data "dc-1" r 25) =
      .ok (.ok (some ⟨"dc-1", "cli", 0, 300, some "1.2.3.4",
        .authorized, some "tok-2"⟩)) := by
  rfl

/-- C1 (amended): `authorize_device_code` checks only presence, never status:
whenever the record is loadable (whatever its status or stored token), the call
succeeds and rewrites the record as authorized with the caller's access token,
overwriting any token already there; only an absent or expired record fails,
with a ValueError. -/
theorem authorize_device_code_overwrites (dc tok : String) (r : RedisStore)
    (now ttl : Int) :
    (∀ d, get_device_authorization_data dc r now = .ok (some d) →
      authorize_device_code dc tok r now ttl =
        .ok (redisSet r ("auth:device:" ++ dc)
          (.record { d with status := .authorized, access_token := some tok })
          (now + ttl * 60))) ∧
    (get_device_authorization_data dc r now = .ok none →
      authorize_device_code dc tok r now ttl = .error .valueError) := by
  constructor
  · intro d hd
    rw [authorize_device_code, hd]
  · intro hd
    rw [authorize_device_code, hd]

/-- C1 (witness): the amended statement evaluated on a freshly created record,
already authorized once with `tok-1`, then authorized with `tok-9`. -/
theorem authorize_device_code_overwrites_witness :
    authorize_device_code "dc-1" "tok-9" deviceBeginState 10 5 =
      .ok (redisSet deviceBeginState ("auth:device:" ++ "dc-1")
        (.record ⟨"dc-1", "cli", 0, 300, some "1.2.3.4",
          .authorized, some "tok-9"⟩)
        (10 + 5 * 60)) :=
  (authorize_device_code_overwrites "dc-1" "tok-9" deviceBeginState 10 5).1
    ⟨"dc-1", "cli", 0, 300, some "1.2.3.4", .pending, none⟩
    (by rfl)

/-- C10: authorizing a device code rewrites the record with a fresh full
store TTL while the `expires_at` field keeps its value from creation time, so
a lookup between the original expiry and the refreshed store expiry returns an
authorized record whose `expires_at` lies in the past. -/
theorem authorize_device_code_stale_expires_at (uc cid dc tok : String)
    (ip : Option String) (t₀ t₁ t ttl : Int)
    (h₁ : t₁ < t₀ + ttl * 60) (h₂ : t₀ + ttl * 60 < t)
    (h₃ : t < t₁ + ttl * 60) :
    authorize_device_code dc tok
        (create_and_store_device_code uc cid ip RedisStore.empty t₀ ttl dc).2
        t₁ ttl =
      .ok (redisSet
        (create_and_store_device_code uc cid ip RedisStore.empty t₀ ttl dc).2
        ("auth:device:" ++ dc)
        (.record ⟨dc, cid, t₀, t₀ + ttl * 60, ip, .authorized, some tok⟩)
        (t₁ + ttl * 60)) ∧
    get_device_authorization_data dc
        (redisSet
          (create_and_store_device_code uc cid ip RedisStore.empty t₀ ttl dc).2
          ("auth:device:" ++ dc)
          (.record ⟨dc, cid, t₀, t₀ + ttl * 60, ip, .authorized, some tok⟩)
          (t₁ + ttl * 60)) t =
      .ok (some ⟨dc, cid, t₀, t₀ + ttl * 60, ip, .authorized, some tok⟩) ∧
    t₀ + ttl * 60 < t := by
  have hget : get_device_authorization_data dc
      (create_and_store_device_code uc cid ip RedisStore.empty t₀ ttl dc).2 t₁ =
      .ok (some ⟨dc, cid, t₀, t₀ + ttl * 60, ip, .pending, none⟩) := by
    simp only [get_device_authorization_data, create_and_store_device_code,
      redisGet, redisSet]
    rw [if_neg (device_key_ne_user_key dc uc)]
    simp [h₁, parseDeviceData, Except.map]
  refine ⟨?_, ?_, h₂⟩
  · rw [authorize_device_code, hget]
  · simp only [get_device_authorization_data, redisGet, redisSet]
    simp [h₃, parseDeviceData, Except.map]

/-- C10 (witness): creation at time 0 with a 5 minute TTL, authorization at
time 200, lookup at time 400 — past the stored `expires_at` of 300 but within
the refreshed store TTL ending at 500. -/
theorem authorize_device_code_stale_expires_at_witness :
    authorize_device_code "dc-1" "tok-1"
        (create_and_store_device_code "uc-1" "cli" (some "1.2.3.4")
          RedisStore.empty 0 5 "dc-1").2 200 5 =
      .ok (redisSet
        (create_and_store_device_code "uc-1" "cli" (some "1.2.3.4")
          RedisStore.empty 0 5 "dc-1").2
        ("auth:device:" ++ "dc-1")
        (.record ⟨"dc-1", "cli", 0, 0 + 5 * 60, some "1.2.3.4",
          .authorized, some "tok-1"⟩)
        (200 + 5 * 60)) ∧
    get_device_authorization_data "dc-1"
        (redisSet
          (create_and_store_device_code "uc-1" "cli" (some "1.2.3.4")
            RedisStore.empty 0 5 "dc-1").2
          ("auth:device:" ++ "dc-1")
          (.record ⟨"dc-1", "cli", 0, 0 + 5 * 60, some "1.2.3.4",
            .authorized, some "tok-1"⟩)
          (200 + 5 * 60)) 400 =
      .ok (some ⟨"dc-1", "cli", 0, 0 + 5 * 60, some "1.2.3.4",
        .authorized, some "tok-1"⟩) ∧
    (0 : Int) + 5 * 60 < 400 :=
  authorize_device_code_stale_expires_at "uc-1" "cli" "dc-1" "tok-1"
    (some "1.2.3.4") 0 200 400 5 (by decide) (by decide) (by decide)

end DeviceFlow

namespace SignedTokens

/-- Splitting at the first dash of `pre ++ "-" ++ rest` recovers the pieces
when `pre` has no dash. -/
theorem splitAtFirstDash_no_dash_prefix (pre : List Char) (h : '-' ∉ pre)
    (rest : List Char) :
    splitAtFirstDash (pre ++ '-' :: rest) = some (pre, rest) := by
  induction pre with
  | nil => simp [splitAtFirstDash]
  | cons c cs ih =>
      simp only [List.cons_append, splitAtFirstDash, List.append_eq]
      rw [if_neg (fun hc => h (by rw [hc]; exact List.mem_cons_self '-' cs))]
      rw [ih (fun hm => h (List.mem_cons_of_mem c hm))]
      rfl

/-- Pythons `("reset-" + e).split("-", maxsplit=1)` yields the kind and the
untouched payload. -/
theorem pySplitOnce_reset (e : String) :
    pySplitOnce ("reset-" ++ e) = ["reset", e] := by
  rw [pySplitOnce]
  have hd : ("reset-" ++ e).data = "reset".data ++ '-' :: e.data := by
    rw [String.data_append]
    rfl
  rw [hd, splitAtFirstDash_no_dash_prefix "reset".data (by decide) e.data]

/-- The email-verification kind splits the same way. -/
theorem pySplitOnce_email (e : String) :
    pySplitOnce ("email-" ++ e) = ["email", e] := by
  rw [pySplitOnce]
  have hd : ("email-" ++ e).data = "email".data ++ '-' :: e.data := by
    rw [String.data_append]
    rfl
  rw [hd, splitAtFirstDash_no_dash_prefix "email".data (by decide) e.data]

/-- C8: issuing a password-reset token and verifying it with the reset kind
before expiry returns the original email; verifying a token of another kind
(an email-verification token), a token whose signature does not verify, or the
token at or past its expiry all return the one indistinguishable `none`. -/
theorem password_reset_token_roundtrip (email key : String)
    (t₀ ttl₁ ttl₂ t : Int) (tok : JwtToken)
    (hnb : t₀ ≤ t) (hexp : t < t₀ + ttl₁) (hexp₂ : t < t₀ + ttl₂) :
    verify_password_reset_token
        (generate_password_reset_token email t₀ ttl₁ key) key t = some email ∧
    verify_password_reset_token
        (generate_verification_email_token email t₀ ttl₂ key) key t = none ∧
    (tok.sig ≠ (key, tok.claims) →
      verify_password_reset_token tok key t = none) ∧
    (∀ t', t₀ + ttl₁ ≤ t' →
      verify_password_reset_token
        (generate_password_reset_token email t₀ ttl₁ key) key t' = none) := by
  refine ⟨?_, ?_, ?_, ?_⟩
  · rw [verify_password_reset_token, generate_password_reset_token, jwt_encode,
      jwt_decode, if_pos ⟨rfl, hnb, hexp⟩]
    simp [pySplitOnce_reset]
  · rw [verify_password_reset_token, generate_verification_email_token,
      jwt_encode, jwt_decode, if_pos ⟨rfl, hnb, hexp₂⟩]
    simp [pySplitOnce_email]
  · intro hsig
    rw [verify_password_reset_token, jwt_decode, if_neg (fun hc => hsig hc.1)]
  · intro t' ht'
    rw [verify_password_reset_token, generate_password_reset_token, jwt_encode,
      jwt_decode, if_neg (fun hc => absurd hc.2.2 (not_lt.mpr ht'))]

/-- C8 (witness): the round trip and the three failure cases evaluated on the
email `user@example.com`, key `k`, issue time 0, one hour reset TTL, two hour
verification TTL, verify time 10, and a token re-signed under the key
`other`. -/
theorem password_reset_token_roundtrip_witness :
    verify_password_reset_token
        (generate_password_reset_token "user@example.com" 0 3600 "k") "k" 10 =
      some "user@example.com" ∧
    verify_password_reset_token
        (generate_verification_email_token "user@example.com" 0 7200 "k") "k"
        10 = none ∧
    verify_password_reset_token
        ⟨⟨3600, 0, "reset-user@example.com"⟩,
         ("other", ⟨3600, 0, "reset-user@example.com"⟩)⟩ "k" 10 = none ∧
    verify_password_reset_token
        (generate_password_reset_token "user@example.com" 0 3600 "k") "k"
        3600 = none := by
  have h := password_reset_token_roundtrip "user@example.com" "k" 0 3600 7200 10
    ⟨⟨3600, 0, "reset-user@example.com"⟩,
     ("other", ⟨3600, 0, "reset-user@example.com"⟩)⟩
    (by decide) (by decide) (by decide)
  exact ⟨h.1, h.2.1, h.2.2.1 (by decide), h.2.2.2 3600 (by decide)⟩

end SignedTokens

namespace OAuthEngine

/-- C2: `authorize` returns a bare (redirect-less) error while no redirect
target is trusted — missing, syntactically invalid, or untrusted redirect_uri —
and, once the redirect_uri has been validated, delivers every parameter
failure (missing response_type, unsupported response_type, missing
code_challenge, non-S256 method) as a redirect to that validated URI carrying
error and error_description; an error redirect can only ever target the
validated redirect_uri. -/
theorem authorize_error_shapes (p : ProviderConfig) (env : Env)
    (st : EngineState) :
    (getTruthy (env.query_params "redirect_uri") = none →
      authorize p env st = (.error "invalid_request" none none, st)) ∧
    (∀ ru, getTruthy (env.query_params "redirect_uri") = some ru →
      env.validate_http_url ru = none →
      authorize p env st = (.error "invalid_redirect_uri" none none, st)) ∧
    (∀ ru vu, getTruthy (env.query_params "redirect_uri") = some ru →
      env.validate_http_url ru = some vu →
      env.is_valid_redirect_uri vu = false →
      authorize p env st = (.error "invalid_redirect_uri" none none, st)) ∧
    (∀ ru vu, getTruthy (env.query_params "redirect_uri") = some ru →
      env.validate_http_url ru = some vu →
      env.is_valid_redirect_uri vu = true →
      getTruthy (env.query_params "response_type") = none →
      authorize p env st =
        (.errorRedirect vu "invalid_request" "No response type provided",
         st)) ∧
    (∀ ru vu rt, getTruthy (env.query_params "redirect_uri") = some ru →
      env.validate_http_url ru = some vu →
      env.is_valid_redirect_uri vu = true →
      getTruthy (env.query_params "response_type") = some rt →
      rt ≠ "code" → rt ≠ "link_code" →
      authorize p env st =
        (.errorRedirect vu "invalid_request" "Unsupported response type",
         st)) ∧
    (∀ ru vu rt, getTruthy (env.query_params "redirect_uri") = some ru →
      env.validate_http_url ru = some vu →
      env.is_valid_redirect_uri vu = true →
      getTruthy (env.query_params "response_type") = some rt →
      (rt = "code" ∨ rt = "link_code") →
      getTruthy (env.query_params "code_challenge") = none →
      authorize p env st =
        (.errorRedirect vu "invalid_request" "No code challenge provided",
         st)) ∧
    (∀ ru vu rt cc, getTruthy (env.query_params "redirect_uri") = some ru →
      env.validate_http_url ru = some vu →
      env.is_valid_redirect_uri vu = true →
      getTruthy (env.query_params "response_type") = some rt →
      (rt = "code" ∨ rt = "link_code") →
      getTruthy (env.query_params "code_challenge") = some cc →
      env.query_params "code_challenge_method" ≠ some "S256" →
      authorize p env st =
        (.errorRedirect vu "invalid_request"
          "Unsupported code challenge method", st)) ∧
    (∀ uri e desc, (authorize p env st).1 = .errorRedirect uri e desc →
      ∃ ru, getTruthy (env.query_params "redirect_uri") = some ru ∧
        env.validate_http_url ru = some uri ∧
        env.is_valid_redirect_uri uri = true) := by
  have hA : getTruthy (env.query_params "redirect_uri") = none →
      authorize p env st = (.error "invalid_request" none none, st) := by
    intro h
    simp [authorize, h]
  have hB : ∀ ru, getTruthy (env.query_params "redirect_uri") = some ru →
      env.validate_http_url ru = none →
      authorize p env st = (.error "invalid_redirect_uri" none none, st) := by
    intro ru hru hvu
    simp [authorize, hru, hvu]
  have hC : ∀ ru vu, getTruthy (env.query_params "redirect_uri") = some ru →
      env.validate_http_url ru = some vu →
      env.is_valid_redirect_uri vu = false →
      authorize p env st = (.error "invalid_redirect_uri" none none, st) := by
    intro ru vu hru hvu hvalid
    simp [authorize, hru, hvu, hvalid]
  have hD : ∀ ru vu, getTruthy (env.query_params "redirect_uri") = some ru →
      env.validate_http_url ru = some vu →
      env.is_valid_redirect_uri vu = true →
      getTruthy (env.query_params "response_type") = none →
      authorize p env st =
        (.errorRedirect vu "invalid_request" "No response type provided",
         st) := by
    intro ru vu hru hvu hvalid hrt
    simp [authorize, hru, hvu, hvalid, hrt]
  have hE : ∀ ru vu rt, getTruthy (env.query_params "redirect_uri") = some ru →
      env.validate_http_url ru = some vu →
      env.is_valid_redirect_uri vu = true →
      getTruthy (env.query_params "response_type") = some rt →
      rt ≠ "code" → rt ≠ "link_code" →
      authorize p env st =
        (.errorRedirect vu "invalid_request" "Unsupported response type",
         st) := by
    intro ru vu rt hru hvu hvalid hrt h₁ h₂
    simp [authorize, hru, hvu, hvalid, hrt, h₁, h₂]
  have hF : ∀ ru vu rt, getTruthy (env.query_params "redirect_uri") = some ru →
      env.validate_http_url ru = some vu →
      env.is_valid_redirect_uri vu = true →
      getTruthy (env.query_params "response_type") = some rt →
      (rt = "code" ∨ rt = "link_code") →
      getTruthy (env.query_params "code_challenge") = none →
      authorize p env st =
        (.errorRedirect vu "invalid_request" "No code challenge provided",
         st) := by
    intro ru vu rt hru hvu hvalid hrt hrtOk hcc
    rcases hrtOk with h | h
    all_goals
      subst h
      simp [authorize, hru, hvu, hvalid, hrt, hcc]
  have hG : ∀ ru vu rt cc,
      getTruthy (env.query_params "redirect_uri") = some ru →
      env.validate_http_url ru = some vu →
      env.is_valid_redirect_uri vu = true →
      getTruthy (env.query_params "response_type") = some rt →
      (rt = "code" ∨ rt = "link_code") →
      getTruthy (env.query_params "code_challenge") = some cc →
      env.query_params "code_challenge_method" ≠ some "S256" →
      authorize p env st =
        (.errorRedirect vu "invalid_request"
          "Unsupported code challenge method", st) := by
    intro ru vu rt cc hru hvu hvalid hrt hrtOk hcc hm
    rcases hmv : env.query_params "code_challenge_method" with _ | m
    · rcases hrtOk with h | h
      all_goals
        subst h
        simp [authorize, hru, hvu, hvalid, hrt, hcc, hmv]
    · have hm₂ : m ≠ "S256" := by
        intro hcontra
        rw [hcontra] at hmv
        exact hm hmv
      rcases hrtOk with h | h
      all_goals
        subst h
        simp [authorize, hru, hvu, hvalid, hrt, hcc, hmv, hm₂]
  refine ⟨hA, hB, hC, hD, hE, hF, hG, ?_⟩
  intro uri e desc h
  rcases hru : getTruthy (env.query_params "redirect_uri") with _ | ru
  · rw [hA hru] at h
    simp at h
  · rcases hvu : env.validate_http_url ru with _ | vu
    · rw [hB ru hru hvu] at h
      simp at h
    · by_cases hvalid : env.is_valid_redirect_uri vu = true
      · refine ⟨ru, rfl, ?_⟩
        rcases hrt : getTruthy (env.query_params "response_type") with _ | rt
        · rw [hD ru vu hru hvu hvalid hrt] at h
          simp at h
          exact h.1 ▸ ⟨hvu, hvalid⟩
        · by_cases hq : rt = "code" ∨ rt = "link_code"
          · rcases hcc : getTruthy (env.query_params "code_challenge")
                with _ | cc
            · rw [hF ru vu rt hru hvu hvalid hrt hq hcc] at h
              simp at h
              exact h.1 ▸ ⟨hvu, hvalid⟩
            · rcases hmv : env.query_params "code_challenge_method"
                  with _ | m
              · rw [hG ru vu rt cc hru hvu hvalid hrt hq hcc
                    (by simp [hmv])] at h
                simp at h
                exact h.1 ▸ ⟨hvu, hvalid⟩
              · by_cases hs : m = "S256"
                · subst hs
                  rcases hq with hq | hq
                  all_goals
                    subst hq
                    simp [authorize, hru, hvu, hvalid, hrt, hcc, hmv] at h
                · rw [hG ru vu rt cc hru hvu hvalid hrt hq hcc
                      (by simp [hmv, hs])] at h
                  simp at h
                  exact h.1 ▸ ⟨hvu, hvalid⟩
          · push_neg at hq
            rw [hE ru vu rt hru hvu hvalid hrt hq.1 hq.2] at h
            simp at h
            exact h.1 ▸ ⟨hvu, hvalid⟩
      · have hvf : env.is_valid_redirect_uri vu = false := by
          simpa using hvalid
        rw [hC ru vu hru hvu hvf] at h
        simp at h

/-- C2 (witness): the bare-error and redirect-carried branches evaluated on a
concrete request with a missing redirect_uri, and on one with a trusted
redirect_uri but a bad challenge method. -/
theorem authorize_error_shapes_witness :
    authorize
        ⟨"d", "https://up.example/auth", ["openid"], true, "cid", "sec"⟩
        ⟨fun _ => none, "http://broker.example/d/authorize", none, none, none,
         fun u => u == "https://app.example/cb",
         fun u => if u = "https://app.example/cb" then some u else none,
         fun _ => .error ("server_error", "Token exchange failed"),
         fun _ => none, "state-1", "code-1", "acct-1", 1000⟩
        ⟨fun _ => none, ⟨[], []⟩⟩ =
      (.error "invalid_request" none none, ⟨fun _ => none, ⟨[], []⟩⟩) ∧
    authorize
        ⟨"d", "https://up.example/auth", ["openid"], true, "cid", "sec"⟩
        ⟨fun k => if k = "redirect_uri" then some "https://app.example/cb"
          else if k = "response_type" then some "code"
          else if k = "code_challenge" then some "n4bQ"
          else if k = "code_challenge_method" then some "plain" else none,
         "http://broker.example/d/authorize", none, none, none,
         fun u => u == "https://app.example/cb",
         fun u => if u = "https://app.example/cb" then some u else none,
         fun _ => .error ("server_error", "Token exchange failed"),
         fun _ => none, "state-1", "code-1", "acct-1", 1000⟩
        ⟨fun _ => none, ⟨[], []⟩⟩ =
      (.errorRedirect "https://app.example/cb" "invalid_request"
        "Unsupported code challenge method", ⟨fun _ => none, ⟨[], []⟩⟩) := by
  constructor
  · exact (authorize_error_shapes _ _ _).1 rfl
  · exact (authorize_error_shapes _ _ _).2.2.2.2.2.2.1 "https://app.example/cb"
      "https://app.example/cb" "code" "n4bQ" rfl rfl rfl rfl (.inl rfl) rfl
      (by simp)

end OAuthEngine

namespace OAuthEngine

/-- C5: `callback` answers a missing `state`, a missing stored
AuthorizationRequestState, and a stored record that fails to parse with a bare
server error and never a redirect; once the stored record is loaded, a missing
upstream `code` is instead delivered as a redirect to the stored redirect_uri
carrying error and error_description. -/
theorem callback_error_shapes (p : ProviderConfig) (env : Env)
    (st : EngineState) :
    (getTruthy (env.query_params "state") = none →
      callback p env st =
        .ok (.error "server_error" (some "No state found in request") none,
          st)) ∧
    (∀ s, getTruthy (env.query_params "state") = some s →
      storageGetTruthy st.secondary_storage
          ("oauth:authorization_request:" ++ s) = none →
      callback p env st =
        .ok (.error "server_error" (some "Provider data not found") none,
          st)) ∧
    (∀ s v, getTruthy (env.query_params "state") = some s →
      storageGetTruthy st.secondary_storage
          ("oauth:authorization_request:" ++ s) = some v →
      parseAuthorizationRequestData v = .error .validationError →
      callback p env st =
        .ok (.error "server_error" (some "Invalid provider data") none,
          st)) ∧
    (∀ s v d, getTruthy (env.query_params "state") = some s →
      storageGetTruthy st.secondary_storage
          ("oauth:authorization_request:" ++ s) = some v →
      parseAuthorizationRequestData v = .ok d →
      getTruthy (env.query_params "code") = none →
      callback p env st =
        .ok (.errorRedirect d.redirect_uri "server_error"
          "No authorization code received in callback", st)) := by
  refine ⟨?_, ?_, ?_, ?_⟩
  · intro h
    simp [callback, h]
  · intro s hs hst
    simp [callback, hs, hst]
  · intro s v hs hst hp
    simp [callback, hs, hst, hp]
  · intro s v d hs hst hp hc
    simp [callback, hs, hst, hp, hc]

/-- C5 (witness): a callback with no `state` parameter gets the bare error,
and a callback with the stored fixture request but no upstream `code` gets the
redirect-carried error aimed at the stored redirect_uri. -/
theorem callback_error_shapes_witness :
    callback provider₀ env₀ ⟨storageAuthReq₀, ⟨[], []⟩⟩ =
      .ok (.error "server_error" (some "No state found in request") none,
        ⟨storageAuthReq₀, ⟨[], []⟩⟩) ∧
    callback provider₀ { env₀ with query_params := qsCallbackNoCode₀ }
        ⟨storageAuthReq₀, ⟨[], []⟩⟩ =
      .ok (.errorRedirect "https://app.example/cb" "server_error"
        "No authorization code received in callback",
        ⟨storageAuthReq₀, ⟨[], []⟩⟩) := by
  constructor
  · exact (callback_error_shapes provider₀ env₀ _).1 rfl
  · exact (callback_error_shapes provider₀
      { env₀ with query_params := qsCallbackNoCode₀ } _).2.2.2 "st-1"
      (.authReq authReq₀) authReq₀ rfl rfl rfl rfl

/-- C6: a non-link callback that exchanges successfully, finds no social
account for the upstream subject, but finds an existing user with the
upstream email, fails closed with an `account_exists` redirect-carried error
and leaves both stores exactly as they were — no user, social account or
authorization code grant is created. -/
theorem callback_account_exists_no_mutation (p : ProviderConfig) (env : Env)
    (st : EngineState) (s : String) (d : OAuth2AuthorizationRequestData)
    (code : String) (ui : UserInfo) (t : TokenResponseData) (u : UserR)
    (hs : getTruthy (env.query_params "state") = some s)
    (hst : storageGetTruthy st.secondary_storage
      ("oauth:authorization_request:" ++ s) = some (.authReq d))
    (hm : d.code_challenge_method = "S256")
    (hc : getTruthy (env.query_params "code") = some code)
    (hlink : d.link = false)
    (hf : env.fetch_user_info code = .ok (ui, t))
    (hsa : find_social_account st.accounts p.id ui.id = none)
    (hue : find_user_by_email st.accounts ui.email = some u) :
    callback p env st =
      .ok (.errorRedirect d.redirect_uri "account_exists"
        "An account with this email already exists.", st) := by
  simp [callback, hs, hst, hm, hc, hlink, hf, hsa, hue,
    parseAuthorizationRequestData]

/-- C6 (witness): the fixture callback where a user already owns the upstream
email `alice@upstream.example` but no social account exists; the state of both
stores is returned unchanged. -/
theorem callback_account_exists_no_mutation_witness :
    callback provider₀ { env₀ with query_params := qsCallback₀ }
        ⟨storageAuthReq₀, ⟨[⟨"u9", "alice@upstream.example"⟩], []⟩⟩ =
      .ok (.errorRedirect "https://app.example/cb" "account_exists"
        "An account with this email already exists.",
        ⟨storageAuthReq₀, ⟨[⟨"u9", "alice@upstream.example"⟩], []⟩⟩) :=
  callback_account_exists_no_mutation provider₀
    { env₀ with query_params := qsCallback₀ }
    ⟨storageAuthReq₀, ⟨[⟨"u9", "alice@upstream.example"⟩], []⟩⟩
    "st-1" authReq₀ "pc-1" userInfo₀ tokResp₀ ⟨"u9", "alice@upstream.example"⟩
    rfl rfl rfl rfl rfl rfl rfl rfl

/-- C9: in the non-link callback branch, when a social account exists for the
upstream subject but its owning user is absent from the accounts storage, the
handler does not return any error response: after refreshing the account
tokens it dereferences the absent user while building the authorization code
grant and dies with an AttributeError. -/
theorem callback_dangling_social_account_crashes (p : ProviderConfig)
    (env : Env) (st : EngineState) (s : String)
    (d : OAuth2AuthorizationRequestData) (code : String) (ui : UserInfo)
    (t : TokenResponseData) (sa : SocialAccountR)
    (hs : getTruthy (env.query_params "state") = some s)
    (hst : storageGetTruthy st.secondary_storage
      ("oauth:authorization_request:" ++ s) = some (.authReq d))
    (hm : d.code_challenge_method = "S256")
    (hc : getTruthy (env.query_params "code") = some code)
    (hlink : d.link = false)
    (hf : env.fetch_user_info code = .ok (ui, t))
    (hsa : find_social_account st.accounts p.id ui.id = some sa)
    (huid : find_user_by_id st.accounts sa.user_id = none) :
    callback p env st = .error .attributeError := by
  have huid' : find_user_by_id
      (update_social_account st.accounts sa.id t) sa.user_id = none := huid
  simp [callback, hs, hst, hm, hc, hlink, hf, hsa, huid',
    parseAuthorizationRequestData]

/-- C9 (witness): the fixture callback with a social account owned by the
absent user id `ghost` raises instead of responding. -/
theorem callback_dangling_social_account_crashes_witness :
    callback provider₀ { env₀ with query_params := qsCallback₀ }
        ⟨storageAuthReq₀,
         ⟨[], [⟨"sa-3", "ghost", "discord", "puid-1", none, none, none, none,
           none⟩]⟩⟩ = .error .attributeError :=
  callback_dangling_social_account_crashes provider₀
    { env₀ with query_params := qsCallback₀ }
    ⟨storageAuthReq₀,
     ⟨[], [⟨"sa-3", "ghost", "discord", "puid-1", none, none, none, none,
       none⟩]⟩⟩
    "st-1" authReq₀ "pc-1" userInfo₀ tokResp₀
    ⟨"sa-3", "ghost", "discord", "puid-1", none, none, none, none, none⟩
    rfl rfl rfl rfl rfl rfl rfl rfl

end OAuthEngine

namespace OAuthEngine

/-- `find?` commutes with a map that does not change the predicate value. -/
theorem find?_map_pred_preserved {α : Type} (l : List α) (p : α → Bool)
    (f : α → α) (hp : ∀ a, p (f a) = p a) :
    (l.map f).find? p = (l.find? p).map f := by
  induction l with
  | nil => rfl
  | cons a as ih =>
      simp only [List.map_cons, List.find?]
      rw [hp a]
      cases hpa : p a
      · simpa [hpa] using ih
      · simp [hpa]

/-- After `update_social_account` of the found account, the same
`(provider, provider_user_id)` lookup returns the account with refreshed
token fields; all its identity fields, in particular its owner, are
unchanged. -/
theorem find_social_account_update (s : AccountsState) (sa : SocialAccountR)
    (t : TokenResponseData) (pr pu : String)
    (h : find_social_account s pr pu = some sa) :
    find_social_account (update_social_account s sa.id t) pr pu =
      some { sa with access_token := some t.access_token,
                     refresh_token := t.refresh_token,
                     access_token_expires_at := t.access_token_expires_at,
                     refresh_token_expires_at := t.refresh_token_expires_at,
                     scope := t.scope } := by
  rw [find_social_account, update_social_account]
  rw [find?_map_pred_preserved _ _ _
    (fun a => by by_cases hid : a.id == sa.id <;> simp [hid])]
  rw [find_social_account] at h
  rw [h]
  simp

/-- `update_social_account` never changes the id or the owner of any stored
account. -/
theorem update_social_account_owner (s : AccountsState) (said : String)
    (t : TokenResponseData) (a : SocialAccountR) (ha : a ∈ s.accounts) :
    ∃ a' ∈ (update_social_account s said t).accounts,
      a'.id = a.id ∧ a'.user_id = a.user_id := by
  rw [update_social_account]
  refine ⟨_, List.mem_map_of_mem _ ha, ?_⟩
  by_cases hid : a.id == said <;> simp [hid]

/-- `create_social_account` keeps every existing account, id and owner
untouched. -/
theorem create_social_account_owner (s : AccountsState)
    (aid uid pr pu : String) (t : TokenResponseData) (a : SocialAccountR)
    (ha : a ∈ s.accounts) :
    ∃ a' ∈ (create_social_account s aid uid pr pu t).accounts,
      a'.id = a.id ∧ a'.user_id = a.user_id := by
  rw [create_social_account]
  exact ⟨a, List.mem_append_left _ ha, rfl, rfl⟩

set_option maxRecDepth 100000 in
/-- C7 (counterexample): on the foreign-owner fixture — the social account for
the upstream subject belongs to `u2` while `u1` calls finalize-link — the
rejection carries the GENERIC error code `server_error` (with the description
`Social account already exists`), not a specific conflict code such as
`account_exists`. -/
theorem finalize_link_conflict_is_generic_server_error :
    finalize_link provider₀ envLink₀ stLinkForeign₀ =
      .ok (.error "server_error" (some "Social account already exists") none,
        stLinkForeign₀) := by
  rfl

/-- C7 (amended): when the social account for the upstream subject belongs to
a different user than the caller, finalize-link rejects with the generic
`server_error` code and the description `Social account already exists`,
returning the stores unchanged; and no finalize-link outcome ever changes the
id or the owner of an existing social account. -/
theorem finalize_link_foreign_account_rejected (p : ProviderConfig)
    (env : Env) (st : EngineState) (u : UserR) (lc cv : String)
    (d : OAuth2LinkCodeData) (ui : UserInfo) (t : TokenResponseData)
    (sa : SocialAccountR)
    (hu : env.current_user = some u)
    (hlc : getTruthy env.body_link_code = some lc)
    (hst : storageGetTruthy st.secondary_storage
      ("oauth:link_request:" ++ lc) = some (.linkReq d))
    (hm : d.code_challenge_method = "S256")
    (hex : ¬ d.expires_at < env.now)
    (hcv : getTruthy env.body_code_verifier = some cv)
    (hpk : Pkce.validate_pkce d.code_challenge "S256" cv = .ok true)
    (hf : env.fetch_user_info d.provider_code = .ok (ui, t))
    (hsa : find_social_account st.accounts p.id ui.id = some sa)
    (hown : sa.user_id ≠ u.id) :
    finalize_link p env st =
      .ok (.error "server_error" (some "Social account already exists") none,
        st) ∧
    (∀ env' st₁ r st₂, finalize_link p env' st₁ = .ok (r, st₂) →
      ∀ a ∈ st₁.accounts.accounts, ∃ a' ∈ st₂.accounts.accounts,
        a'.id = a.id ∧ a'.user_id = a.user_id) := by
  constructor
  · simp [finalize_link, hu, hlc, hst, hm, hex, hcv, hpk, hf, hsa, hown,
      parseLinkCodeData]
  · intro env' st₁ r st₂ h a ha
    rw [finalize_link] at h
    repeat' split at h
    all_goals cases h
    all_goals
      first
        | exact ⟨a, ha, rfl, rfl⟩
        | exact update_social_account_owner _ _ _ a ha
        | exact create_social_account_owner _ _ _ _ _ _ a ha

set_option maxRecDepth 100000 in
/-- C7 (witness): the amended rejection evaluated on the foreign-owner
fixture, the PKCE hypothesis checked by computing the S256 challenge of
`test`. -/
theorem finalize_link_foreign_account_rejected_witness :
    finalize_link provider₀ envLink₀ stLinkForeign₀ =
      .ok (.error "server_error" (some "Social account already exists") none,
        stLinkForeign₀) :=
  (finalize_link_foreign_account_rejected provider₀ envLink₀ stLinkForeign₀
    ⟨"u1", "u1@example.com"⟩ "lc-1" "test" linkData₀ userInfo₀ tokResp₀
    ⟨"sa-2", "u2", "discord", "puid-1", none, none, none, none, none⟩
    rfl rfl rfl rfl (by decide) rfl (by rfl) rfl rfl (by decide)).1

set_option maxRecDepth 100000 in
/-- C4 (counterexample): on the owned-account fixture, two consecutive
finalize-link calls presenting the SAME link code `lc-1` both succeed with
200 — the second redemption is not rejected. -/
theorem finalize_link_second_redemption_succeeds :
    finalizeTwiceRun =
      .ok (.success 200 linkFinalizedBody, .success 200 linkFinalizedBody) := by
  rfl

/-- C4 (amended): `finalize_link` never deletes or marks the LinkCodeState:
after a successful call the stored record is still there unchanged, and a
second call presenting the same link code (with the same verifier, the
upstream exchange succeeding again) succeeds again with 200. Exactly-once
redemption is not enforced by this code. -/
theorem finalize_link_not_consumed (p : ProviderConfig) (env : Env)
    (st : EngineState) (u : UserR) (lc cv : String) (d : OAuth2LinkCodeData)
    (ui : UserInfo) (t : TokenResponseData) (sa : SocialAccountR)
    (hu : env.current_user = some u)
    (hlc : getTruthy env.body_link_code = some lc)
    (hst : storageGetTruthy st.secondary_storage
      ("oauth:link_request:" ++ lc) = some (.linkReq d))
    (hm : d.code_challenge_method = "S256")
    (hex : ¬ d.expires_at < env.now)
    (hcv : getTruthy env.body_code_verifier = some cv)
    (hpk : Pkce.validate_pkce d.code_challenge "S256" cv = .ok true)
    (hf : env.fetch_user_info d.provider_code = .ok (ui, t))
    (hsa : find_social_account st.accounts p.id ui.id = some sa)
    (hown : sa.user_id = u.id) :
    finalize_link p env st =
      .ok (.success 200 linkFinalizedBody,
        { st with accounts := update_social_account st.accounts sa.id t }) ∧
    storageGetTruthy
        ({ st with accounts := update_social_account st.accounts sa.id t } :
          EngineState).secondary_storage ("oauth:link_request:" ++ lc) =
      some (.linkReq d) ∧
    finalize_link p env
        { st with accounts := update_social_account st.accounts sa.id t } =
      .ok (.success 200 linkFinalizedBody,
        { st with accounts := update_social_account (update_social_account st.accounts sa.id t) sa.id t }) := by
  have hupd := find_social_account_update st.accounts sa t p.id ui.id hsa
  refine ⟨?_, hst, ?_⟩
  · simp [finalize_link, hu, hlc, hst, hm, hex, hcv, hpk, hf, hsa, hown,
      parseLinkCodeData]
  · simp [finalize_link, hu, hlc, hst, hm, hex, hcv, hpk, hf, hupd, hown,
      parseLinkCodeData]

set_option maxRecDepth 100000 in
/-- C4 (witness): the amended statement evaluated on the owned-account
fixture, the PKCE hypothesis checked by computing the S256 challenge of
`test`. -/
theorem finalize_link_not_consumed_witness :
    finalize_link provider₀ envLink₀ stLinkOwned₀ =
      .ok (.success 200 linkFinalizedBody,
        { stLinkOwned₀ with accounts :=
            update_social_account stLinkOwned₀.accounts "sa-1" tokResp₀ }) ∧
    storageGetTruthy
        ({ stLinkOwned₀ with accounts :=
            update_social_account stLinkOwned₀.accounts "sa-1" tokResp₀ } :
          EngineState).secondary_storage "oauth:link_request:lc-1" =
      some (.linkReq linkData₀) ∧
    finalize_link provider₀ envLink₀
        { stLinkOwned₀ with accounts :=
            update_social_account stLinkOwned₀.accounts "sa-1" tokResp₀ } =
      .ok (.success 200 linkFinalizedBody,
        { stLinkOwned₀ with accounts := update_social_account (update_social_account stLinkOwned₀.accounts "sa-1" tokResp₀) "sa-1" tokResp₀ }) :=
  finalize_link_not_consumed provider₀ envLink₀ stLinkOwned₀
    ⟨"u1", "u1@example.com"⟩ "lc-1" "test" linkData₀ userInfo₀ tokResp₀
    ⟨"sa-1", "u1", "discord", "puid-1", none, none, none, none, none⟩
    rfl rfl rfl rfl (by decide) rfl (by rfl) rfl rfl rfl

end OAuthEngine
